import Mathlib

/-!
Shallow embedding of the cross-layer correlation engine of the
Net4000-Project repository, and proofs about the claims of its
natural-language specification.

Part 1 embeds `src/src/correlation/correlator.py`
(`CrossLayerCorrelator`): the windowed join of kernel events onto
application requests, per-request kernel-statistics aggregation, and the
rule-based discrepancy classifier.

Part 2 embeds `src/cross-layer/src/correlation/analyzer.py`
(`PerformanceAnalyzer`): metric extraction, aggregated statistics
(mean / median / min / max / nearest-rank percentiles / throughput), and
the report-export record shape used by the round-trip property.

Conventions of the embedding:
* Python dictionaries loaded from JSON are embedded as structures whose
  fields are `Option`-valued: `d['k']` (which raises `KeyError` when the
  key is absent) becomes `require`, returning in the `Except String`
  monad, while `d.get('k', default)` becomes `Option.getD`.
* Python numbers are embedded exactly: `int` as `ℤ` (or `ℕ` for counters
  that only ever grow from 0 by 1) and `float` as `ℚ`.  The analyzer's
  `statistics.stdev` is the one real square root in the source; the
  embedding carries its square (the sample variance,
  `latency_stddev_sq`) so arithmetic stays exact — the source's stddev
  value is determined by it, and no claim's statement depends on the
  stddev beyond (in)equality, which the square preserves on
  nonnegatives.
* The f-string reason messages of `_detect_discrepancy` are embedded as
  the inductive type `Reason`, one constructor per `return True, "..."`
  site, carrying exactly the values the source interpolates into the
  message.
-/

/-- Python `d['k']`: yields the value or raises `KeyError`. -/
def require {α : Type} (o : Option α) (fld : String) : Except String α :=
  match o with
  | some v => Except.ok v
  | none => Except.error ("KeyError: " ++ fld)

/-- Python `int(q)` on a float/number: truncation toward zero. -/
def pyInt (q : ℚ) : ℤ :=
  if 0 ≤ q then ⌊q⌋ else ⌈q⌉

/-- One application request record as loaded from the app-metrics JSON
stream (`app_metrics` entries).  Every field the correlator may touch;
absent keys are `none`. -/
structure AppMetric where
  request_id : Option ℤ
  start_time : Option ℚ
  end_time : Option ℚ
  latency_ms : Option ℚ
  result : Option String
  status_code : Option ℤ
  deriving DecidableEq

/-- One kernel event record as loaded from the eBPF-events JSON stream. -/
structure EbpfEvent where
  timestamp_ns : Option ℤ
  pid : Option ℤ
  event_type : Option String
  bytes : Option ℤ
  comm : Option String
  deriving DecidableEq

/-- The aggregate built by `CrossLayerCorrelator._analyze_kernel_events`:
`{'bytes_sent': .., 'bytes_recv': .., 'connections': .., 'closes': ..,
'event_types': defaultdict(int)}`. -/
structure KernelStats where
  bytes_sent : ℤ
  bytes_recv : ℤ
  connections : ℕ
  closes : ℕ
  event_types : List (String × ℕ)
  deriving DecidableEq

/-- Embeds `defaultdict(int)` increment: `d[k] += 1`. -/
def bumpCount (l : List (String × ℕ)) (k : String) : List (String × ℕ) :=
  match l with
  | [] => [(k, 1)]
  | (k', v) :: rest =>
      if k' = k then (k', v + 1) :: rest else (k', v) :: bumpCount rest k

/-- Embeds `d.get(k, 0)` on the event-type counter dictionary. -/
def getCount (l : List (String × ℕ)) (k : String) : ℕ :=
  match l with
  | [] => 0
  | (k', v) :: rest => if k' = k then v else getCount rest k

/-- The classifier's reason message, one constructor per
`return True, f"..."` site of `_detect_discrepancy`, carrying the values
the source interpolates. -/
inductive Reason where
  /-- Message "App reports success but kernel detected \x7bn\x7d TCP retransmissions
  (hidden network issues)" -/
  | hiddenRetransmissions (count : ℕ)
  /-- Message "App reports success but kernel shows \x7bn\x7d connection attempts
  (reliability issues masked)" -/
  | maskedConnectionRetries (count : ℕ)
  /-- Message "App reports fast success (..ms) but kernel shows \x7bn\x7d events
  (hidden inefficiency)" -/
  | hiddenInefficiency (latency : ℚ) (count : ℕ)
  /-- Message "App reports success but kernel shows data sent with no response
  received (potential packet loss)" -/
  | sentWithoutResponse
  /-- Message "App reports success but kernel shows data received without prior
  send (protocol anomaly)" -/
  | recvWithoutSend
  /-- Message "App reports low latency (..ms) but kernel shows \x7bn\x7d close
  attempts (hidden connection issues)" -/
  | hiddenConnectionChurn (latency : ℚ) (closes : ℕ)
  /-- Message "App reused connection (appears fast) but kernel shows excessive
  events (hidden connection issues)" -/
  | connectionReuseExcess
  /-- Message "App reports success but kernel shows \x7bs\x7d sends and \x7br\x7d receives
  (excessive system calls indicate inefficiency)" -/
  | excessiveSyscalls (sends : ℕ) (recvs : ℕ)
  deriving DecidableEq

/-- The correlator's output record (`@dataclass CorrelatedEvent`). -/
structure CorrelatedEvent where
  request_id : ℤ
  app_latency_ms : ℚ
  app_status_code : Option ℤ
  kernel_events : List EbpfEvent
  kernel_total_bytes_sent : ℤ
  kernel_total_bytes_recv : ℤ
  kernel_connection_events : ℕ
  kernel_event_count : ℕ
  discrepancy_detected : Bool
  discrepancy_reason : Option Reason
  deriving DecidableEq

/-- Embeds `CrossLayerCorrelator._find_matching_events`: keep every event whose
`timestamp_ns` lies in `[start_ns - W, end_ns + W]` (the window bounds
are floats in the source, hence the `ℚ` comparison). -/
def findMatchingEvents (time_window_ns : ℚ) (ebpf_events : List EbpfEvent)
    (start_ns end_ns : ℤ) : Except String (List EbpfEvent) :=
  match ebpf_events with
  | [] => Except.ok []
  | e :: rest => do
      let ts ← require e.timestamp_ns "timestamp_ns"
      let m ← findMatchingEvents time_window_ns rest start_ns end_ns
      if (start_ns : ℚ) - time_window_ns ≤ (ts : ℚ) ∧
          (ts : ℚ) ≤ (end_ns : ℚ) + time_window_ns then
        Except.ok (e :: m)
      else
        Except.ok m

/-- Loop body accumulation of `_analyze_kernel_events`. -/
def analyzeKernelEventsAux (stats : KernelStats) :
    List EbpfEvent → Except String KernelStats
  | [] => Except.ok stats
  | e :: rest => do
      let et ← require e.event_type "event_type"
      let stats := { stats with event_types := bumpCount stats.event_types et }
      if et = "send" then do
        let b ← require e.bytes "bytes"
        analyzeKernelEventsAux { stats with bytes_sent := stats.bytes_sent + b } rest
      else if et = "recv" then do
        let b ← require e.bytes "bytes"
        analyzeKernelEventsAux { stats with bytes_recv := stats.bytes_recv + b } rest
      else if et = "connect" then
        analyzeKernelEventsAux { stats with connections := stats.connections + 1 } rest
      else if et = "close" then
        analyzeKernelEventsAux { stats with closes := stats.closes + 1 } rest
      else
        analyzeKernelEventsAux stats rest

/-- Embeds `CrossLayerCorrelator._analyze_kernel_events`. -/
def analyzeKernelEvents (events : List EbpfEvent) : Except String KernelStats :=
  analyzeKernelEventsAux ⟨0, 0, 0, 0, []⟩ events

/-- Embeds `app_success = (app_metric.get('result') == 'success' or
app_metric.get('status_code') == 200)`. -/
def appSuccess (m : AppMetric) : Bool :=
  m.result == some "success" || m.status_code == some 200

/-- Embeds `CrossLayerCorrelator._detect_discrepancy`: the rule chain, first
true rule wins.  `app_metric['latency_ms']` is a `KeyError`-raising
access first evaluated at the BLIND SPOT 3 check, hence the `require`
at that point. -/
def detectDiscrepancy (m : AppMetric) (ks : KernelStats)
    (matching : List EbpfEvent) : Except String (Bool × Option Reason) :=
  if matching.length = 0 then Except.ok (false, none)
  else if ¬ appSuccess m then Except.ok (false, none)
  else
    let retransmit_events := matching.filter (fun e => e.event_type == some "retransmit")
    if retransmit_events.length > 0 then
      Except.ok (true, some (Reason.hiddenRetransmissions retransmit_events.length))
    else
      let connect_events := getCount ks.event_types "connect"
      if connect_events > 1 then
        Except.ok (true, some (Reason.maskedConnectionRetries connect_events))
      else do
        let lat ← require m.latency_ms "latency_ms"
        if lat < 10 ∧ matching.length > 50 then
          Except.ok (true, some (Reason.hiddenInefficiency lat matching.length))
        else if ks.bytes_sent > 1000 ∧ ks.bytes_recv = 0 then
          Except.ok (true, some Reason.sentWithoutResponse)
        else if ks.bytes_recv > 1000 ∧ ks.bytes_sent = 0 then
          Except.ok (true, some Reason.recvWithoutSend)
        else
          let close_events := getCount ks.event_types "close"
          if lat < 20 ∧ close_events > 2 then
            Except.ok (true, some (Reason.hiddenConnectionChurn lat close_events))
          else if ks.connections = 0 ∧ (ks.bytes_sent > 0 ∨ ks.bytes_recv > 0) ∧
              matching.length > 20 then
            Except.ok (true, some Reason.connectionReuseExcess)
          else
            let send_count := getCount ks.event_types "send"
            let recv_count := getCount ks.event_types "recv"
            if send_count > 10 ∨ recv_count > 10 then
              Except.ok (true, some (Reason.excessiveSyscalls send_count recv_count))
            else
              Except.ok (false, none)

/-- Embeds `set(e['pid'] for e in ebpf_events)` at the top of `correlate`: every
event's `'pid'` key is accessed eagerly (the set itself is unused beyond
debug output). -/
def collectPids : List EbpfEvent → Except String (List ℤ)
  | [] => Except.ok []
  | e :: rest => do
      let p ← require e.pid "pid"
      let ps ← collectPids rest
      Except.ok (p :: ps)

/-- One iteration of the `for metric in app_metrics` loop of
`CrossLayerCorrelator.correlate`. -/
def correlateOne (time_window_ns : ℚ) (ebpf_events : List EbpfEvent)
    (metric : AppMetric) : Except String CorrelatedEvent := do
  let st ← require metric.start_time "start_time"
  let en ← require metric.end_time "end_time"
  let start_ns := pyInt (st * 1000000000)
  let end_ns := pyInt (en * 1000000000)
  let matching ← findMatchingEvents time_window_ns ebpf_events start_ns end_ns
  let ks ← analyzeKernelEvents matching
  let dr ← detectDiscrepancy metric ks matching
  let rid ← require metric.request_id "request_id"
  let lat ← require metric.latency_ms "latency_ms"
  Except.ok
    { request_id := rid
      app_latency_ms := lat
      app_status_code := metric.status_code
      kernel_events := matching
      kernel_total_bytes_sent := ks.bytes_sent
      kernel_total_bytes_recv := ks.bytes_recv
      kernel_connection_events := ks.connections
      kernel_event_count := matching.length
      discrepancy_detected := dr.1
      discrepancy_reason := dr.2 }

/-- The `for metric in app_metrics` loop: one `CorrelatedEvent` appended
per input metric, in input order. -/
def correlateAux (time_window_ns : ℚ) (ebpf_events : List EbpfEvent) :
    List AppMetric → Except String (List CorrelatedEvent)
  | [] => Except.ok []
  | m :: rest => do
      let c ← correlateOne time_window_ns ebpf_events m
      let cs ← correlateAux time_window_ns ebpf_events rest
      Except.ok (c :: cs)

/-- Embeds `CrossLayerCorrelator.correlate` for a correlator constructed with
`time_window_ms` (so `time_window_ns = time_window_ms * 1_000_000`, per
`__init__`). -/
def correlate (time_window_ms : ℚ) (app_metrics : List AppMetric)
    (ebpf_events : List EbpfEvent) : Except String (List CorrelatedEvent) := do
  let _ ← collectPids ebpf_events
  correlateAux (time_window_ms * 1000000) ebpf_events app_metrics

/-- The constructor default `time_window_ms: float = 500.0`. -/
def defaultTimeWindowMs : ℚ := 500

/-!
Part 2: `src/cross-layer/src/correlation/analyzer.py`.
-/

/-- One per-request record as seen by the analyzer's JSON-level reads:
the union of the keys `analyze_correlations` reads from a correlation
record and the keys `export_report` writes into a `detailed_metrics`
record (the only shared key is `request_id`).  Absent keys are `none`. -/
structure JRecord where
  request_id : Option ℤ := none
  app_latency_ms : Option ℚ := none
  app_status_code : Option ℤ := none
  kernel_bytes_sent : Option ℤ := none
  kernel_bytes_recv : Option ℤ := none
  app_success : Option Bool := none
  kernel_events_count : Option ℤ := none
  kernel_connection_duration_ns : Option ℚ := none
  discrepancy_detected : Option Bool := none
  discrepancy_reason : Option String := none
  latency_ms : Option ℚ := none
  throughput_mbps : Option ℚ := none
  bytes_sent : Option ℤ := none
  bytes_received : Option ℤ := none
  kernel_events : Option ℤ := none
  connection_duration_ms : Option ℚ := none
  success : Option Bool := none
  error_type : Option String := none
  deriving DecidableEq

/-- The top-level correlation dictionary the analyzer consumes:
`correlation_data.get('correlations', [])`,
`.get('blind_spots_detected', 0)`, `.get('blind_spot_types', {})`. -/
structure CorrelationData where
  correlations : List JRecord := []
  blind_spots_detected : Option ℤ := none
  blind_spot_types : Option (List (String × ℤ)) := none
  deriving DecidableEq

/-- Embeds `@dataclass PerformanceMetrics` of the analyzer. -/
structure PerformanceMetrics where
  request_id : ℤ
  latency_ms : ℚ
  bytes_sent : ℤ
  bytes_received : ℤ
  throughput_bps : ℚ
  kernel_events_count : ℤ
  connection_duration_ns : ℚ
  success : Bool
  error_type : Option String := none
  deriving DecidableEq

/-- Embeds `@dataclass AggregatedStatistics`, with its constructor defaults.
`latency_stddev_sq` carries the square of the source's
`latency_stddev = statistics.stdev(latencies)` so that the embedding
stays in exact arithmetic (the default 0.0 squares to 0). -/
structure AggregatedStatistics where
  total_requests : ℕ := 0
  successful_requests : ℕ := 0
  failed_requests : ℕ := 0
  latency_avg : ℚ := 0
  latency_median : ℚ := 0
  latency_min : ℚ := 0
  latency_max : ℚ := 0
  latency_stddev_sq : ℚ := 0
  latency_p50 : ℚ := 0
  latency_p90 : ℚ := 0
  latency_p95 : ℚ := 0
  latency_p99 : ℚ := 0
  throughput_avg_mbps : ℚ := 0
  throughput_total_mb : ℚ := 0
  bytes_sent_total : ℤ := 0
  bytes_received_total : ℤ := 0
  kernel_events_avg : ℚ := 0
  kernel_events_total : ℤ := 0
  bytes_per_event_avg : ℚ := 0
  connection_duration_avg_ms : ℚ := 0
  success_rate_pct : ℚ := 100
  error_rate_pct : ℚ := 0
  requests_per_second : ℚ := 0
  events_per_second : ℚ := 0
  blind_spots_count : ℤ := 0
  blind_spots_pct : ℚ := 0
  discrepancy_types : List (String × ℤ) := []
  high_latency_count : ℕ := 0
  low_throughput_count : ℕ := 0
  timeout_count : ℕ := 0
  deriving DecidableEq

/-- Embeds `PerformanceAnalyzer.__init__` configuration. -/
structure AnalyzerConfig where
  high_latency_threshold_ms : ℚ := 100
  low_throughput_threshold_mbps : ℚ := 1
  deriving DecidableEq

/-- Embeds `sum(l)` over rationals. -/
def listSum (l : List ℚ) : ℚ := l.foldl (· + ·) 0

/-- Embeds `sum(l)` over integers. -/
def listSumInt (l : List ℤ) : ℤ := l.foldl (· + ·) 0

/-- Embeds `statistics.mean(l)` (only invoked on non-empty `l`). -/
def meanQ (l : List ℚ) : ℚ := listSum l / (l.length : ℚ)

/-- Python `min(l)` (only invoked on non-empty `l`). -/
def listMin : List ℚ → ℚ
  | [] => 0
  | h :: t => t.foldl min h

/-- Python `max(l)` (only invoked on non-empty `l`). -/
def listMax : List ℚ → ℚ
  | [] => 0
  | h :: t => t.foldl max h

/-- Python `sorted(l)` ascending.  A sorted permutation of a list of
rationals is unique, so any sorting algorithm gives the source's
result. -/
def sortQ (l : List ℚ) : List ℚ := l.insertionSort (· ≤ ·)

/-- Embeds `statistics.median(l)` (only invoked on non-empty `l`). -/
def medianQ (l : List ℚ) : ℚ :=
  let s := sortQ l
  let n := s.length
  if n % 2 = 1 then s.getD (n / 2) 0
  else (s.getD (n / 2 - 1) 0 + s.getD (n / 2) 0) / 2

/-- Embeds `statistics.stdev(l) ** 2`, the sample variance with Bessel's
correction (only invoked when `1 < l.length`). -/
def sampleVariance (l : List ℚ) : ℚ :=
  let μ := meanQ l
  listSum (l.map (fun x => (x - μ) ^ 2)) / ((l.length : ℚ) - 1)

/-- Embeds `PerformanceAnalyzer._percentile`: nearest-rank index
`int((percentile / 100.0) * n)` clamped into range, 0.0 on empty
input. -/
def percentile (sorted_data : List ℚ) (p : ℕ) : ℚ :=
  if sorted_data.isEmpty then 0
  else
    let n := sorted_data.length
    let index := ⌊(p : ℚ) / 100 * (n : ℚ)⌋₊
    let index := if index ≥ n then n - 1 else index
    sorted_data.getD index 0

/-- Embeds `'timeout' in s.lower()` substring test. -/
def hasTimeoutWord (s : String) : Bool :=
  (s.toLower.splitOn "timeout").length > 1

/-- The body of the `for corr in correlations` loop of
`analyze_correlations`: build one `PerformanceMetrics` from a
correlation record (all reads are `corr.get(key, default)`). -/
def corrToMetric (corr : JRecord) : PerformanceMetrics :=
  let total_bytes : ℤ := corr.kernel_bytes_sent.getD 0 + corr.kernel_bytes_recv.getD 0
  let latency_ms := corr.app_latency_ms.getD 0
  let throughput_bps : ℚ :=
    if latency_ms > 0 then ((total_bytes : ℚ) * 8) / (latency_ms / 1000) else 0
  let success := corr.app_success.getD true
  let error_type : Option String :=
    if success then none
    else if hasTimeoutWord (corr.discrepancy_reason.getD "") then some "timeout"
    else some "error"
  { request_id := corr.request_id.getD 0
    latency_ms := latency_ms
    bytes_sent := corr.kernel_bytes_sent.getD 0
    bytes_received := corr.kernel_bytes_recv.getD 0
    throughput_bps := throughput_bps
    kernel_events_count := corr.kernel_events_count.getD 0
    connection_duration_ns := corr.kernel_connection_duration_ns.getD 0
    success := success
    error_type := error_type }

/-- Embeds `PerformanceAnalyzer._calculate_statistics` on a fresh analyzer
whose `self.metrics` is `metrics` (early-return keeps the constructed
defaults when `metrics` is empty). -/
def calculateStatistics (cfg : AnalyzerConfig) (metrics : List PerformanceMetrics)
    (data : CorrelationData) : AggregatedStatistics :=
  if metrics.isEmpty then {}
  else
    let total : ℕ := metrics.length
    let successful : ℕ := (metrics.filter (fun m => m.success)).length
    let failed : ℕ := total - successful
    let success_rate : ℚ := ((successful : ℚ) / (total : ℚ)) * 100
    let error_rate : ℚ := 100 - success_rate
    let latencies := metrics.map (fun m => m.latency_ms)
    let lat_avg := meanQ latencies
    let lat_med := medianQ latencies
    let lat_min := listMin latencies
    let lat_max := listMax latencies
    let lat_var := if latencies.length > 1 then sampleVariance latencies else 0
    let sorted_latencies := sortQ latencies
    let p50 := percentile sorted_latencies 50
    let p90 := percentile sorted_latencies 90
    let p95 := percentile sorted_latencies 95
    let p99 := percentile sorted_latencies 99
    let throughputs :=
      (metrics.filter (fun m => m.throughput_bps > 0)).map (fun m => m.throughput_bps)
    let throughput_avg_mbps : ℚ :=
      if throughputs.isEmpty then 0 else meanQ throughputs / 1000000
    let bytes_sent_total := listSumInt (metrics.map (fun m => m.bytes_sent))
    let bytes_received_total := listSumInt (metrics.map (fun m => m.bytes_received))
    let throughput_total_mb : ℚ :=
      ((bytes_sent_total + bytes_received_total : ℤ) : ℚ) / 1000000
    let event_counts : List ℤ :=
      (metrics.filter (fun m => m.kernel_events_count > 0)).map
        (fun m => m.kernel_events_count)
    let kernel_events_avg : ℚ :=
      if event_counts.isEmpty then 0 else meanQ (event_counts.map (fun x => (x : ℚ)))
    let kernel_events_total : ℤ :=
      if event_counts.isEmpty then 0 else listSumInt event_counts
    let bytes_per_event_avg : ℚ :=
      if ¬ event_counts.isEmpty ∧ kernel_events_total > 0 then
        ((bytes_sent_total + bytes_received_total : ℤ) : ℚ) / (kernel_events_total : ℚ)
      else 0
    let durations :=
      (metrics.filter (fun m => m.connection_duration_ns > 0)).map
        (fun m => m.connection_duration_ns / 1000000)
    let connection_duration_avg_ms : ℚ :=
      if durations.isEmpty then 0 else meanQ durations
    let high_latency_count :=
      (metrics.filter (fun m => m.latency_ms > cfg.high_latency_threshold_ms)).length
    let low_throughput_count :=
      (metrics.filter (fun m =>
        m.throughput_bps > 0 ∧
        m.throughput_bps < cfg.low_throughput_threshold_mbps * 1000000)).length
    let num_timeouts :=
      (metrics.filter (fun m => m.error_type == some "timeout")).length
    let blind_spots_count := data.blind_spots_detected.getD 0
    let blind_spots_pct : ℚ := ((blind_spots_count : ℚ) / (total : ℚ)) * 100
    { total_requests := total
      successful_requests := successful
      failed_requests := failed
      success_rate_pct := success_rate
      error_rate_pct := error_rate
      latency_avg := lat_avg
      latency_median := lat_med
      latency_min := lat_min
      latency_max := lat_max
      latency_stddev_sq := lat_var
      latency_p50 := p50
      latency_p90 := p90
      latency_p95 := p95
      latency_p99 := p99
      throughput_avg_mbps := throughput_avg_mbps
      throughput_total_mb := throughput_total_mb
      bytes_sent_total := bytes_sent_total
      bytes_received_total := bytes_received_total
      kernel_events_avg := kernel_events_avg
      kernel_events_total := kernel_events_total
      bytes_per_event_avg := bytes_per_event_avg
      connection_duration_avg_ms := connection_duration_avg_ms
      blind_spots_count := blind_spots_count
      blind_spots_pct := blind_spots_pct
      discrepancy_types := data.blind_spot_types.getD []
      high_latency_count := high_latency_count
      low_throughput_count := low_throughput_count
      timeout_count := num_timeouts }

/-- Embeds `PerformanceAnalyzer.analyze_correlations` on a fresh analyzer:
returns the accumulated `self.metrics` and the resulting `self.stats`
(the empty-correlations early return keeps both at their constructed
defaults). -/
def analyzeCorrelations (cfg : AnalyzerConfig) (data : CorrelationData) :
    List PerformanceMetrics × AggregatedStatistics :=
  if data.correlations.isEmpty then ([], {})
  else
    let metrics := data.correlations.map corrToMetric
    (metrics, calculateStatistics cfg metrics data)

/-- The body of the `for metric in app_metrics` loop of
`analyze_baseline` (all reads are `metric.get(key, default)`). -/
def baselineToMetric (m : AppMetric) : PerformanceMetrics :=
  let success := appSuccess m
  { request_id := m.request_id.getD 0
    latency_ms := m.latency_ms.getD 0
    bytes_sent := 0
    bytes_received := 0
    throughput_bps := 0
    kernel_events_count := 0
    connection_duration_ns := 0
    success := success
    error_type := if success then none else m.result }

/-- Embeds `PerformanceAnalyzer._calculate_baseline_statistics` on a fresh
analyzer whose `self.metrics` is `metrics`. -/
def calculateBaselineStatistics (cfg : AnalyzerConfig)
    (metrics : List PerformanceMetrics) : AggregatedStatistics :=
  if metrics.isEmpty then {}
  else
    let total : ℕ := metrics.length
    let successful : ℕ := (metrics.filter (fun m => m.success)).length
    let failed : ℕ := total - successful
    let success_rate : ℚ := ((successful : ℚ) / (total : ℚ)) * 100
    let error_rate : ℚ := 100 - success_rate
    let latencies := metrics.map (fun m => m.latency_ms)
    let lat_avg := meanQ latencies
    let lat_med := medianQ latencies
    let lat_min := listMin latencies
    let lat_max := listMax latencies
    let lat_var := if latencies.length > 1 then sampleVariance latencies else 0
    let sorted_latencies := sortQ latencies
    let p50 := percentile sorted_latencies 50
    let p90 := percentile sorted_latencies 90
    let p95 := percentile sorted_latencies 95
    let p99 := percentile sorted_latencies 99
    let high_latency_count :=
      (metrics.filter (fun m => m.latency_ms > cfg.high_latency_threshold_ms)).length
    let num_timeouts :=
      (metrics.filter (fun m => m.error_type == some "timeout")).length
    { total_requests := total
      successful_requests := successful
      failed_requests := failed
      success_rate_pct := success_rate
      error_rate_pct := error_rate
      latency_avg := lat_avg
      latency_median := lat_med
      latency_min := lat_min
      latency_max := lat_max
      latency_stddev_sq := lat_var
      latency_p50 := p50
      latency_p90 := p90
      latency_p95 := p95
      latency_p99 := p99
      high_latency_count := high_latency_count
      timeout_count := num_timeouts }

/-- Embeds `PerformanceAnalyzer.analyze_baseline` on a fresh analyzer. -/
def analyzeBaseline (cfg : AnalyzerConfig) (app_metrics : List AppMetric) :
    List PerformanceMetrics × AggregatedStatistics :=
  let metrics := app_metrics.map baselineToMetric
  (metrics, calculateBaselineStatistics cfg metrics)

/-- One `detailed_metrics` entry written by
`PerformanceAnalyzer.export_report`, read back as the JSON record it
serializes to. -/
def exportDetailedMetric (m : PerformanceMetrics) : JRecord :=
  { request_id := some m.request_id
    latency_ms := some m.latency_ms
    throughput_mbps := some (m.throughput_bps / 1000000)
    bytes_sent := some m.bytes_sent
    bytes_received := some m.bytes_received
    kernel_events := some m.kernel_events_count
    connection_duration_ms := some (m.connection_duration_ns / 1000000)
    success := some m.success
    error_type := m.error_type }

/-- The `detailed_metrics` list of the exported performance report. -/
def exportDetailedMetrics (metrics : List PerformanceMetrics) : List JRecord :=
  metrics.map exportDetailedMetric

/-- Feeding the exported `detailed_metrics` records back to the Analyzer
as the correlations of a correlation-data object (the round-trip of the
spec; the performance report has no top-level `blind_spots_detected` or
`blind_spot_types` keys). -/
def roundTripData (metrics : List PerformanceMetrics) : CorrelationData :=
  { correlations := exportDetailedMetrics metrics }

/-!
Concrete sample inputs used by witnesses and counterexamples.
-/

/-- A successful request record with every field present. -/
def mSuccess : AppMetric :=
  { request_id := some 1, start_time := some 0, end_time := some (1/20),
    latency_ms := some 50, result := some "success", status_code := some 200 }

/-- A second successful request record, distinct id. -/
def mSuccess2 : AppMetric :=
  { request_id := some 2, start_time := some (1/10), end_time := some (3/20),
    latency_ms := some 50, result := some "error", status_code := some 200 }

/-- A failed request record (result error, status 500). -/
def mError : AppMetric :=
  { request_id := some 3, start_time := some 0, end_time := some (1/20),
    latency_ms := some 50, result := some "error", status_code := some 500 }

/-- The scenario-D request: `status_code = 200`. -/
def mScenarioD : AppMetric :=
  { request_id := some 4, start_time := some 0, end_time := some (1/20),
    latency_ms := some 50, result := none, status_code := some 200 }

/-- A single connect event, in-window timestamps. -/
def evConnect : EbpfEvent :=
  { timestamp_ns := some 1000, pid := some 42, event_type := some "connect",
    bytes := some 0, comm := some "curl" }

/-- A send event carrying 2000 bytes. -/
def evSend2000 : EbpfEvent :=
  { timestamp_ns := some 2000, pid := some 42, event_type := some "send",
    bytes := some 2000, comm := some "curl" }

/-- An event far outside any sample window. -/
def evFar : EbpfEvent :=
  { timestamp_ns := some 1000000000000000000, pid := some 42,
    event_type := some "recv", bytes := some 5, comm := none }

/-- A malformed kernel event: the required `pid` key is absent. -/
def evNoPid : EbpfEvent :=
  { timestamp_ns := some 1000, pid := none, event_type := some "send",
    bytes := some 10, comm := none }

/-- Embeds `analyzeKernelEvents [evConnect]`. -/
def ksConnectOnly : KernelStats := ⟨0, 0, 1, 0, [("connect", 1)]⟩

/-- Embeds `analyzeKernelEvents [evSend2000]`. -/
def ksSend2000 : KernelStats := ⟨2000, 0, 0, 0, [("send", 1)]⟩

/-- The correlated event produced for `mSuccess` against an empty kernel
stream. -/
def cOut1 : CorrelatedEvent :=
  { request_id := 1, app_latency_ms := 50, app_status_code := some 200,
    kernel_events := [], kernel_total_bytes_sent := 0,
    kernel_total_bytes_recv := 0, kernel_connection_events := 0,
    kernel_event_count := 0, discrepancy_detected := false,
    discrepancy_reason := none }

/-- The correlated event produced for `mSuccess2` against an empty
kernel stream. -/
def cOut2 : CorrelatedEvent := { cOut1 with request_id := 2 }

/-- One concrete correlation record for the analyzer. -/
def jCorrSample : JRecord :=
  { request_id := some 1, app_latency_ms := some 5,
    kernel_bytes_sent := some 1000, kernel_bytes_recv := some 1000,
    app_success := some true, kernel_events_count := some 4 }

/-- One concrete correlation-data object around `jCorrSample`. -/
def dataSample : CorrelationData :=
  { correlations := [jCorrSample], blind_spots_detected := some 0,
    blind_spot_types := some [] }

/-- The metric `analyze_correlations` reconstructs from an exported
`detailed_metrics` record: only `request_id` is a key that both sides
use, so every other field falls back to its `get` default (latency 0,
bytes 0, success true). -/
def reimportedMetric (m : PerformanceMetrics) : PerformanceMetrics :=
  { request_id := m.request_id, latency_ms := 0, bytes_sent := 0,
    bytes_received := 0, throughput_bps := 0, kernel_events_count := 0,
    connection_duration_ns := 0, success := true, error_type := none }

/-- One concrete analyzer metric record (the metric extracted from
`jCorrSample`: throughput = (2000 bytes * 8) / (5 ms / 1000)). -/
def pmSample : PerformanceMetrics :=
  { request_id := 1, latency_ms := 5, bytes_sent := 1000,
    bytes_received := 1000, throughput_bps := 3200000,
    kernel_events_count := 4, connection_duration_ns := 0, success := true,
    error_type := none }

/-!
Theorems.
-/

theorem except_bind_ok {ε α β : Type} (a : α) (f : α → Except ε β) :
    (Except.ok a >>= f) = f a := rfl

theorem except_bind_error {ε α β : Type} (msg : ε) (f : α → Except ε β) :
    ((Except.error msg : Except ε α) >>= f) = Except.error msg := rfl

theorem findMatchingEvents_mem (W : ℚ) (es : List EbpfEvent) (s e : ℤ)
    (matched : List EbpfEvent) (ev : EbpfEvent)
    (h : findMatchingEvents W es s e = Except.ok matched) :
    ev ∈ matched ↔ ev ∈ es ∧ ∃ ts, ev.timestamp_ns = some ts ∧
      (s : ℚ) - W ≤ (ts : ℚ) ∧ (ts : ℚ) ≤ (e : ℚ) + W := by
  induction es generalizing matched with
  | nil =>
      simp only [findMatchingEvents] at h
      injection h with h
      subst h
      simp
  | cons e' rest ih =>
      simp only [findMatchingEvents] at h
      cases hts : e'.timestamp_ns with
      | none => rw [hts] at h; simp only [require, except_bind_error] at h; cases h
      | some ts' =>
          rw [hts] at h
          simp only [require, except_bind_ok] at h
          cases hrest : findMatchingEvents W rest s e with
          | error msg => rw [hrest] at h; simp only [except_bind_error] at h; cases h
          | ok m =>
              rw [hrest] at h
              simp only [except_bind_ok] at h
              split at h
              case isTrue hcond =>
                  injection h with h
                  subst h
                  constructor
                  · intro hm
                    rcases List.mem_cons.mp hm with rfl | hm'
                    · exact ⟨List.mem_cons_self _ _, ts', hts, hcond.1, hcond.2⟩
                    · obtain ⟨hin, ts, hts2, hc1, hc2⟩ := (ih m hrest).mp hm'
                      exact ⟨List.mem_cons_of_mem _ hin, ts, hts2, hc1, hc2⟩
                  · rintro ⟨hin, ts, hts2, hc1, hc2⟩
                    rcases List.mem_cons.mp hin with rfl | hin'
                    · exact List.mem_cons_self _ _
                    · exact List.mem_cons_of_mem _
                        ((ih m hrest).mpr ⟨hin', ts, hts2, hc1, hc2⟩)
              case isFalse hcond =>
                  injection h with h
                  subst h
                  rw [ih m hrest]
                  constructor
                  · rintro ⟨hin, hP⟩
                    exact ⟨List.mem_cons_of_mem _ hin, hP⟩
                  · rintro ⟨hin, ts, hts2, hc1, hc2⟩
                    rcases List.mem_cons.mp hin with rfl | hin'
                    · rw [hts] at hts2
                      injection hts2 with hts2
                      subst hts2
                      exact absurd ⟨hc1, hc2⟩ hcond
                    · exact ⟨hin', ts, hts2, hc1, hc2⟩

/-- C7: for a correlator configured with `time_window_ms`, a kernel
event is in a request's matched subset iff its timestamp lies in the
request interval expanded by `W = time_window_ms * 1_000_000`
nanoseconds on both sides (boundaries included). -/
theorem matched_iff_in_expanded_window (time_window_ms : ℚ)
    (es : List EbpfEvent) (start_ns end_ns : ℤ) (matched : List EbpfEvent)
    (ev : EbpfEvent)
    (h : findMatchingEvents (time_window_ms * 1000000) es start_ns end_ns =
      Except.ok matched) :
    ev ∈ matched ↔ ev ∈ es ∧ ∃ ts, ev.timestamp_ns = some ts ∧
      (start_ns : ℚ) - time_window_ms * 1000000 ≤ (ts : ℚ) ∧
      (ts : ℚ) ≤ (end_ns : ℚ) + time_window_ms * 1000000 :=
  findMatchingEvents_mem (time_window_ms * 1000000) es start_ns end_ns matched ev h

theorem matched_iff_in_expanded_window_witness :
    (findMatchingEvents (500 * 1000000) [evConnect, evFar] 0 1000000000 =
      Except.ok [evConnect]) ∧
    (evConnect ∈ [evConnect] ↔ evConnect ∈ [evConnect, evFar] ∧
      ∃ ts, evConnect.timestamp_ns = some ts ∧
        ((0 : ℤ) : ℚ) - 500 * 1000000 ≤ (ts : ℚ) ∧
        (ts : ℚ) ≤ ((1000000000 : ℤ) : ℚ) + 500 * 1000000) := by
  have h : findMatchingEvents (500 * 1000000) [evConnect, evFar] 0 1000000000 =
      Except.ok [evConnect] := by
    norm_num [findMatchingEvents, require, evConnect, evFar, except_bind_ok]
  exact ⟨h, matched_iff_in_expanded_window 500 [evConnect, evFar] 0 1000000000
    [evConnect] evConnect h⟩

theorem correlateOne_ok_elim (tw : ℚ) (es : List EbpfEvent) (m : AppMetric)
    (c : CorrelatedEvent) (h : correlateOne tw es m = Except.ok c) :
    ∃ st en matching ks dr,
      m.start_time = some st ∧ m.end_time = some en ∧
      findMatchingEvents tw es (pyInt (st * 1000000000))
        (pyInt (en * 1000000000)) = Except.ok matching ∧
      analyzeKernelEvents matching = Except.ok ks ∧
      detectDiscrepancy m ks matching = Except.ok dr ∧
      m.request_id = some c.request_id ∧
      m.latency_ms = some c.app_latency_ms ∧
      c.kernel_event_count = matching.length ∧
      c.discrepancy_detected = dr.1 ∧ c.discrepancy_reason = dr.2 := by
  simp only [correlateOne] at h
  cases hst : m.start_time with
  | none => rw [hst] at h; simp only [require, except_bind_error] at h; cases h
  | some st =>
  rw [hst] at h; simp only [require, except_bind_ok] at h
  cases hen : m.end_time with
  | none => rw [hen] at h; simp only [require, except_bind_error] at h; cases h
  | some en =>
  rw [hen] at h; simp only [require, except_bind_ok] at h
  cases hfm : findMatchingEvents tw es (pyInt (st * 1000000000))
      (pyInt (en * 1000000000)) with
  | error msg => rw [hfm] at h; simp only [except_bind_error] at h; cases h
  | ok matching =>
  rw [hfm] at h; simp only [except_bind_ok] at h
  cases hks : analyzeKernelEvents matching with
  | error msg => rw [hks] at h; simp only [except_bind_error] at h; cases h
  | ok ks =>
  rw [hks] at h; simp only [except_bind_ok] at h
  cases hdr : detectDiscrepancy m ks matching with
  | error msg => rw [hdr] at h; simp only [except_bind_error] at h; cases h
  | ok dr =>
  rw [hdr] at h; simp only [except_bind_ok] at h
  cases hrid : m.request_id with
  | none => rw [hrid] at h; simp only [require, except_bind_error] at h; cases h
  | some rid =>
  rw [hrid] at h; simp only [require, except_bind_ok] at h
  cases hlat : m.latency_ms with
  | none => rw [hlat] at h; simp only [require, except_bind_error] at h; cases h
  | some lat =>
  rw [hlat] at h; simp only [require, except_bind_ok] at h
  injection h with h
  subst h
  exact ⟨st, en, matching, ks, dr, rfl, rfl, hfm, hks, hdr, rfl, rfl, rfl, rfl, rfl⟩

/-- C5: under the implemented "true blind spot" absence policy, a
request whose matched kernel-event subset is empty yields a
CorrelatedEvent with `discrepancy_detected = false` and no reason,
regardless of the request's result or status code. -/
theorem no_matched_no_discrepancy (tw : ℚ) (es : List EbpfEvent)
    (m : AppMetric) (c : CorrelatedEvent)
    (h : correlateOne tw es m = Except.ok c)
    (h0 : c.kernel_event_count = 0) :
    c.discrepancy_detected = false ∧ c.discrepancy_reason = none := by
  obtain ⟨st, en, matching, ks, dr, hst, hen, hfm, hks, hdr, hrid, hlat, hkc,
    hdd, hdr2⟩ := correlateOne_ok_elim tw es m c h
  have hm : matching = [] :=
    List.eq_nil_of_length_eq_zero (by rw [← hkc, h0])
  subst hm
  have : dr = (false, none) := by
    simp only [detectDiscrepancy, List.length_nil, if_pos rfl] at hdr
    injection hdr with hdr
    exact hdr.symm
  rw [hdd, hdr2, this]
  exact ⟨rfl, rfl⟩

theorem no_matched_no_discrepancy_witness :
    (correlateOne (500 * 1000000) [] mSuccess = Except.ok cOut1 ∧
      cOut1.kernel_event_count = 0) ∧
    (cOut1.discrepancy_detected = false ∧ cOut1.discrepancy_reason = none) := by
  have h : correlateOne (500 * 1000000) [] mSuccess = Except.ok cOut1 := by
    simp [correlateOne, findMatchingEvents, analyzeKernelEvents,
      analyzeKernelEventsAux, detectDiscrepancy, require, mSuccess, cOut1,
      except_bind_ok]
  exact ⟨⟨h, rfl⟩, no_matched_no_discrepancy _ _ _ _ h rfl⟩

theorem correlateAux_ok_map (tw : ℚ) (es : List EbpfEvent) :
    ∀ (app : List AppMetric) (out : List CorrelatedEvent),
      correlateAux tw es app = Except.ok out →
      app.map (fun m => m.request_id) = out.map (fun c => some c.request_id) := by
  intro app
  induction app with
  | nil =>
      intro out h
      simp only [correlateAux] at h
      injection h with h
      subst h
      simp
  | cons m rest ih =>
      intro out h
      simp only [correlateAux] at h
      cases h1 : correlateOne tw es m with
      | error msg => rw [h1] at h; simp only [except_bind_error] at h; cases h
      | ok c =>
      rw [h1] at h; simp only [except_bind_ok] at h
      cases h2 : correlateAux tw es rest with
      | error msg => rw [h2] at h; simp only [except_bind_error] at h; cases h
      | ok cs =>
      rw [h2] at h; simp only [except_bind_ok] at h
      injection h with h
      subst h
      obtain ⟨st, en, matching, ks, dr, hst, hen, hfm, hks, hdr, hrid, hlat, _,
        _, _⟩ := correlateOne_ok_elim tw es m c h1
      simp only [List.map_cons, hrid, ih cs h2]

/-- C8: for every pair of input streams on which the run succeeds, the
output has exactly one CorrelatedEvent per input request record, in
input order, each carrying its source record's request_id; given unique
input request_ids each appears exactly once in the output. -/
theorem correlate_one_event_per_request (tw : ℚ) (app : List AppMetric)
    (es : List EbpfEvent) (out : List CorrelatedEvent)
    (h : correlate tw app es = Except.ok out) :
    app.map (fun m => m.request_id) = out.map (fun c => some c.request_id) ∧
    ((app.map (fun m => m.request_id)).Nodup →
      (out.map (fun c => c.request_id)).Nodup) := by
  simp only [correlate] at h
  cases hp : collectPids es with
  | error msg => rw [hp] at h; simp only [except_bind_error] at h; cases h
  | ok ps =>
  rw [hp] at h; simp only [except_bind_ok] at h
  have hmap := correlateAux_ok_map (tw * 1000000) es app out h
  refine ⟨hmap, fun hnd => ?_⟩
  rw [hmap] at hnd
  have heq : out.map (fun c => some c.request_id) =
      (out.map (fun c => c.request_id)).map some := by
    rw [List.map_map]
    rfl
  rw [heq] at hnd
  exact hnd.of_map some

theorem correlate_one_event_per_request_witness :
    correlate 500 [mSuccess, mSuccess2] [] = Except.ok [cOut1, cOut2] ∧
    ([mSuccess, mSuccess2].map (fun m => m.request_id) =
      [cOut1, cOut2].map (fun c => some c.request_id) ∧
     (([mSuccess, mSuccess2].map (fun m => m.request_id)).Nodup →
      ([cOut1, cOut2].map (fun c => c.request_id)).Nodup)) := by
  have h : correlate 500 [mSuccess, mSuccess2] [] = Except.ok [cOut1, cOut2] := by
    simp [correlate, collectPids, correlateAux, correlateOne, findMatchingEvents,
      analyzeKernelEvents, analyzeKernelEventsAux, detectDiscrepancy, require,
      mSuccess, mSuccess2, cOut1, cOut2, except_bind_ok]
  exact ⟨h, correlate_one_event_per_request 500 _ _ _ h⟩

theorem collectPids_error_of_missing (es : List EbpfEvent)
    (h : ∃ ev ∈ es, ev.pid = none) :
    ∃ msg, collectPids es = Except.error msg := by
  induction es with
  | nil => obtain ⟨ev, hmem, _⟩ := h; cases hmem
  | cons e rest ih =>
      obtain ⟨ev, hmem, hpid⟩ := h
      cases hp : e.pid with
      | none =>
          refine ⟨"KeyError: pid", ?_⟩
          simp only [collectPids, hp, require, except_bind_error]
          rfl
      | some p =>
          rcases List.mem_cons.mp hmem with rfl | hmem'
          · rw [hp] at hpid; cases hpid
          · obtain ⟨msg, hmsg⟩ := ih ⟨ev, hmem', hpid⟩
            refine ⟨msg, ?_⟩
            simp only [collectPids, hp, require, except_bind_ok, hmsg,
              except_bind_error]

/-- C2 corrected: a kernel event missing a required field is not skipped
and not tallied — it makes the entire correlation run fail with an
error (the source has no skipped-and-unparseable count at all).  Here:
any event whose `pid` key is absent aborts `correlate` for every pair of
input streams containing it. -/
theorem malformed_event_aborts_run (tw : ℚ) (app : List AppMetric)
    (es : List EbpfEvent) (h : ∃ ev ∈ es, ev.pid = none) :
    ∃ msg, correlate tw app es = Except.error msg := by
  obtain ⟨msg, hmsg⟩ := collectPids_error_of_missing es h
  exact ⟨msg, by simp only [correlate, hmsg, except_bind_error]⟩

theorem malformed_event_aborts_run_witness :
    (∃ ev ∈ [evNoPid], ev.pid = none) ∧
    ∃ msg, correlate 500 [mSuccess] [evNoPid] = Except.error msg :=
  ⟨⟨evNoPid, List.mem_cons_self _ _, rfl⟩,
    malformed_event_aborts_run 500 [mSuccess] [evNoPid]
      ⟨evNoPid, List.mem_cons_self _ _, rfl⟩⟩

/-- C2 counterexample: a concrete run with a single well-formed request
and a single kernel event lacking its `pid` field fails outright with a
`KeyError` instead of skipping the record and completing — refuting the
claim that a single malformed record never causes the run to fail. -/
theorem malformed_event_aborts_run_cex :
    correlate 500 [mSuccess] [evNoPid] = Except.error "KeyError: pid" := by
  simp only [correlate, collectPids, evNoPid, require, except_bind_error]
  rfl

/-- C1 corrected: the classifier has no "success with no kernel transfer
evidence" rule.  A success-reporting request whose non-empty matched
subset has zero send/recv occurrences (hence zero send/recv bytes) is
flagged by no rule at all, provided none of the unrelated rules
(retransmissions, multiple connects, low-latency/high-count, connection
churn) fires; the original claim's second half (zero-byte send/recv
events not flagged by this rule) holds vacuously. -/
theorem success_no_transfer_not_flagged (m : AppMetric) (ks : KernelStats)
    (matching : List EbpfEvent) (lat : ℚ)
    (hne : matching.length ≠ 0)
    (hsucc : appSuccess m = true)
    (hretrans : (matching.filter
      (fun e => e.event_type == some "retransmit")).length = 0)
    (hconn : getCount ks.event_types "connect" ≤ 1)
    (hlat : m.latency_ms = some lat)
    (hr3 : ¬ (lat < 10 ∧ matching.length > 50))
    (hr5 : ¬ (lat < 20 ∧ getCount ks.event_types "close" > 2))
    (hsendc : getCount ks.event_types "send" = 0)
    (hrecvc : getCount ks.event_types "recv" = 0)
    (hbs : ks.bytes_sent = 0) (hbr : ks.bytes_recv = 0) :
    detectDiscrepancy m ks matching = Except.ok (false, none) := by
  have hconn' : ¬ getCount ks.event_types "connect" > 1 := not_lt.mpr hconn
  simp only [detectDiscrepancy, hsucc, hretrans, hconn', hlat, require,
    except_bind_ok, hbs, hbr, hsendc, hrecvc, if_neg hne]
  simp [hr3, hr5]

theorem success_no_transfer_not_flagged_witness :
    (appSuccess mSuccess = true ∧
      analyzeKernelEvents [evConnect] = Except.ok ksConnectOnly ∧
      ksConnectOnly.bytes_sent = 0 ∧ ksConnectOnly.bytes_recv = 0 ∧
      getCount ksConnectOnly.event_types "send" = 0 ∧
      getCount ksConnectOnly.event_types "recv" = 0) ∧
    detectDiscrepancy mSuccess ksConnectOnly [evConnect] =
      Except.ok (false, none) := by
  refine ⟨⟨rfl, ?_, rfl, rfl, rfl, rfl⟩, ?_⟩
  · simp [analyzeKernelEvents, analyzeKernelEventsAux, require, evConnect,
      ksConnectOnly, bumpCount, except_bind_ok]
  · exact success_no_transfer_not_flagged mSuccess ksConnectOnly [evConnect] 50
      (by decide) rfl (by decide) (by decide) rfl (by norm_num)
      (by norm_num [ksConnectOnly, getCount]) rfl rfl rfl rfl

/-- C1 counterexample: a concrete success request (`result = success`,
`status_code = 200`, latency 50 ms) whose matched subset is one connect
event — non-empty, zero send/recv bytes, zero send/recv occurrences —
is NOT flagged: the classifier returns no discrepancy, refuting the
claimed "success with no kernel transfer evidence" flag. -/
theorem success_no_transfer_not_flagged_cex :
    appSuccess mSuccess = true ∧
    ksConnectOnly.bytes_sent = 0 ∧ ksConnectOnly.bytes_recv = 0 ∧
    getCount ksConnectOnly.event_types "send" = 0 ∧
    getCount ksConnectOnly.event_types "recv" = 0 ∧
    detectDiscrepancy mSuccess ksConnectOnly [evConnect] =
      Except.ok (false, none) := by
  exact ⟨rfl, rfl, rfl, rfl, rfl, rfl⟩

/-- C4 corrected: the asymmetric-data-flow rule fires only for requests
the application reported as successful — the `app_success` guard
precedes every rule, so rule 6 does carry that precondition.  Under
success and with no earlier rule firing, `bytes_sent > 1000` with
`bytes_recv = 0` yields the "sent without response" reason and the
symmetric case yields "received without prior send"; without app
success the classifier never flags anything.  The scenario-D request
(`status_code = 200`, `bytes_sent = 2000`, `bytes_recv = 0`) does get
"sent without response" (see the witness). -/
theorem asymmetric_flow_rule_requires_success :
    (∀ (m : AppMetric) (ks : KernelStats) (matching : List EbpfEvent) (lat : ℚ),
      matching.length ≠ 0 → appSuccess m = true →
      analyzeKernelEvents matching = Except.ok ks →
      (matching.filter (fun e => e.event_type == some "retransmit")).length = 0 →
      getCount ks.event_types "connect" ≤ 1 →
      m.latency_ms = some lat → ¬ (lat < 10 ∧ matching.length > 50) →
      ks.bytes_sent > 1000 → ks.bytes_recv = 0 →
      detectDiscrepancy m ks matching =
        Except.ok (true, some Reason.sentWithoutResponse)) ∧
    (∀ (m : AppMetric) (ks : KernelStats) (matching : List EbpfEvent) (lat : ℚ),
      matching.length ≠ 0 → appSuccess m = true →
      analyzeKernelEvents matching = Except.ok ks →
      (matching.filter (fun e => e.event_type == some "retransmit")).length = 0 →
      getCount ks.event_types "connect" ≤ 1 →
      m.latency_ms = some lat → ¬ (lat < 10 ∧ matching.length > 50) →
      ks.bytes_recv > 1000 → ks.bytes_sent = 0 →
      detectDiscrepancy m ks matching =
        Except.ok (true, some Reason.recvWithoutSend)) ∧
    (∀ (m : AppMetric) (ks : KernelStats) (matching : List EbpfEvent),
      appSuccess m = false →
      detectDiscrepancy m ks matching = Except.ok (false, none)) := by
  refine ⟨?_, ?_, ?_⟩
  · intro m ks matching lat hne hsucc _ hretrans hconn hlat hr3 hsent hrecv
    have hconn' : ¬ getCount ks.event_types "connect" > 1 := not_lt.mpr hconn
    simp only [detectDiscrepancy, hsucc, hretrans, hconn', hlat, require,
      except_bind_ok, hrecv, if_neg hne]
    simp [hr3, hsent]
  · intro m ks matching lat hne hsucc _ hretrans hconn hlat hr3 hrecv hsent
    have hconn' : ¬ getCount ks.event_types "connect" > 1 := not_lt.mpr hconn
    simp only [detectDiscrepancy, hsucc, hretrans, hconn', hlat, require,
      except_bind_ok, hsent, if_neg hne]
    simp [hr3, hrecv]
  · intro m ks matching hsucc
    simp only [detectDiscrepancy, hsucc]
    split
    · rfl
    · simp

theorem asymmetric_flow_rule_requires_success_witness :
    (([evSend2000] : List EbpfEvent).length ≠ 0 ∧
      appSuccess mScenarioD = true ∧
      analyzeKernelEvents [evSend2000] = Except.ok ksSend2000 ∧
      ksSend2000.bytes_sent > 1000 ∧ ksSend2000.bytes_recv = 0) ∧
    detectDiscrepancy mScenarioD ksSend2000 [evSend2000] =
      Except.ok (true, some Reason.sentWithoutResponse) := by
  have hks : analyzeKernelEvents [evSend2000] = Except.ok ksSend2000 := by
    simp [analyzeKernelEvents, analyzeKernelEventsAux, require, evSend2000,
      ksSend2000, bumpCount, except_bind_ok]
  refine ⟨⟨by decide, rfl, hks, by decide, rfl⟩, ?_⟩
  exact asymmetric_flow_rule_requires_success.1 mScenarioD ksSend2000
    [evSend2000] 50 (by decide) rfl hks (by decide) (by decide) rfl
    (by norm_num) (by decide) rfl

/-- C4 counterexample: a request the application did NOT report as
successful (`result = error`, `status_code = 500`) with matched kernel
events aggregating to `bytes_sent = 2000 > 1000` and `bytes_recv = 0`
is not flagged at all — refuting the claim that rule 6 carries no
app-success precondition. -/
theorem asymmetric_flow_rule_requires_success_cex :
    analyzeKernelEvents [evSend2000] = Except.ok ksSend2000 ∧
    ksSend2000.bytes_sent > 1000 ∧ ksSend2000.bytes_recv = 0 ∧
    appSuccess mError = false ∧
    detectDiscrepancy mError ksSend2000 [evSend2000] =
      Except.ok (false, none) := by
  refine ⟨?_, by decide, rfl, rfl, rfl⟩
  simp [analyzeKernelEvents, analyzeKernelEventsAux, require, evSend2000,
    ksSend2000, bumpCount, except_bind_ok]

theorem foldl_add_eq (l : List ℚ) : ∀ a : ℚ, l.foldl (· + ·) a = a + l.sum := by
  induction l with
  | nil => intro a; simp
  | cons x t ih => intro a; simp only [List.foldl_cons, ih, List.sum_cons]; ring

theorem listSum_eq_sum (l : List ℚ) : listSum l = l.sum := by
  simp [listSum, foldl_add_eq]

theorem filter_map_true_eq {α β : Type} (g : α → β) (p : β → Bool)
    (h : ∀ a, p (g a) = true) (l : List α) :
    (l.map g).filter p = l.map g := by
  induction l with
  | nil => rfl
  | cons x t ih => simp [List.filter_cons, h, ih]

/-- C3 corrected: the export/re-import round-trip does not reproduce the
summary.  `analyze_correlations` reads the keys `app_latency_ms`,
`kernel_bytes_sent`, `kernel_bytes_recv`, `app_success`,
`kernel_events_count`, while `export_report` writes `latency_ms`,
`bytes_sent`, `bytes_received`, `success`, `kernel_events` — only
`request_id` survives.  Re-analysing the exported `detailed_metrics`
therefore keeps total_requests but sees every latency as 0 and every
request as successful: the recomputed summary has
`successful_requests = total`, `success_rate_pct = 100` and
`latency_avg = 0` whatever the original run contained. -/
theorem roundtrip_resets_summary (cfg : AnalyzerConfig)
    (ms : List PerformanceMetrics) (hne : ms ≠ []) :
    (analyzeCorrelations cfg (roundTripData ms)).2.total_requests = ms.length ∧
    (analyzeCorrelations cfg (roundTripData ms)).2.successful_requests = ms.length ∧
    (analyzeCorrelations cfg (roundTripData ms)).2.success_rate_pct = 100 ∧
    (analyzeCorrelations cfg (roundTripData ms)).2.latency_avg = 0 := by
  obtain ⟨m0, tl, rfl⟩ := List.exists_cons_of_ne_nil hne
  have hcomp : corrToMetric ∘ exportDetailedMetric = reimportedMetric :=
    funext fun m => rfl
  have hred : analyzeCorrelations cfg (roundTripData (m0 :: tl)) =
      (((m0 :: tl).map exportDetailedMetric).map corrToMetric,
       calculateStatistics cfg
         (((m0 :: tl).map exportDetailedMetric).map corrToMetric)
         (roundTripData (m0 :: tl))) := by
    simp [analyzeCorrelations, roundTripData, exportDetailedMetrics]
  have hmet : ((m0 :: tl).map exportDetailedMetric).map corrToMetric =
      (m0 :: tl).map reimportedMetric := by
    rw [List.map_map, hcomp]
  rw [hred, hmet]
  have hie : ((m0 :: tl).map reimportedMetric).isEmpty = false := by simp
  simp only [calculateStatistics, hie, Bool.false_eq_true, if_false]
  refine ⟨by simp, ?_, ?_, ?_⟩
  · rw [filter_map_true_eq _ _ (fun a => rfl)]
    simp
  · rw [filter_map_true_eq _ _ (fun a => rfl)]
    simp only [List.length_map, List.length_cons]
    rw [div_self (Nat.cast_ne_zero.mpr (Nat.succ_ne_zero _)), one_mul]
  · rw [List.map_map]
    have hlz : ((fun m : PerformanceMetrics => m.latency_ms) ∘
        reimportedMetric) = fun _ => (0 : ℚ) := rfl
    rw [hlz, meanQ, listSum_eq_sum]
    simp

theorem roundtrip_resets_summary_witness :
    ([pmSample] : List PerformanceMetrics) ≠ [] ∧
    ((analyzeCorrelations {} (roundTripData [pmSample])).2.total_requests = 1 ∧
     (analyzeCorrelations {} (roundTripData [pmSample])).2.successful_requests = 1 ∧
     (analyzeCorrelations {} (roundTripData [pmSample])).2.success_rate_pct = 100 ∧
     (analyzeCorrelations {} (roundTripData [pmSample])).2.latency_avg = 0) :=
  ⟨List.cons_ne_nil _ _,
    roundtrip_resets_summary {} [pmSample] (List.cons_ne_nil _ _)⟩

/-- C3 counterexample: for a concrete run with one correlation of
latency 5 ms, the original summary has latency_avg = 5, while re-running
the Analyzer on the exported detailed_metrics records yields
latency_avg = 0 — the round-trip does not reproduce the summary. -/
theorem roundtrip_changes_summary_cex :
    (analyzeCorrelations {} dataSample).2.latency_avg = 5 ∧
    (analyzeCorrelations {}
      (roundTripData (analyzeCorrelations {} dataSample).1)).2.latency_avg = 0 ∧
    (analyzeCorrelations {}
        (roundTripData (analyzeCorrelations {} dataSample).1)).2.latency_avg ≠
      (analyzeCorrelations {} dataSample).2.latency_avg := by
  refine ⟨?_, ?_, ?_⟩ <;>
    norm_num [analyzeCorrelations, calculateStatistics, corrToMetric,
      dataSample, jCorrSample, roundTripData, exportDetailedMetrics,
      exportDetailedMetric, meanQ, listSum, hasTimeoutWord]

/-- C6: For every non-empty list of N latency samples sorted ascending
and every percentile P in \x7b50, 90, 95, 99\x7d, the Analyzer's P-th
percentile equals the sample at index floor(P/100 * N), clamped to N-1
(nearest-rank, no linear interpolation). -/
theorem percentile_nearest_rank (l : List ℚ) (p : ℕ) (hne : l ≠ [])
    (_hsorted : l.Sorted (· ≤ ·)) (hp : p = 50 ∨ p = 90 ∨ p = 95 ∨ p = 99) :
    percentile l p = l.getD (min (p * l.length / 100) (l.length - 1)) 0 := by
  have hp99 : p ≤ 99 := by rcases hp with h | h | h | h <;> omega
  have hn : 0 < l.length := List.length_pos.mpr hne
  have hfloor : ⌊(p : ℚ) / 100 * (l.length : ℚ)⌋₊ = p * l.length / 100 := by
    rw [div_mul_eq_mul_div, ← Nat.cast_mul]
    exact_mod_cast Nat.floor_div_eq_div (α := ℚ) (p * l.length) 100
  have hlt : p * l.length / 100 < l.length := by
    rw [Nat.div_lt_iff_lt_mul (by norm_num)]
    calc p * l.length ≤ 99 * l.length := Nat.mul_le_mul_right _ hp99
      _ < l.length * 100 := by omega
  simp only [percentile, List.isEmpty_eq_true, hne, if_false, hfloor,
    if_neg (not_le.mpr hlt)]
  rw [min_eq_left (by omega)]

theorem percentile_nearest_rank_witness :
    (([1, 2, 3] : List ℚ) ≠ [] ∧ ([1, 2, 3] : List ℚ).Sorted (· ≤ ·)) ∧
    percentile [1, 2, 3] 90 =
      ([1, 2, 3] : List ℚ).getD (min (90 * 3 / 100) (3 - 1)) 0 :=
  ⟨⟨by decide, by decide⟩,
    percentile_nearest_rank [1, 2, 3] 90 (by decide) (by decide) (by decide)⟩

/-- C9: division-by-zero conditions in the statistics computation yield
the zero sentinel: per-request throughput is 0 when the latency is ≤ 0,
the percentile of an empty sample set is 0, and the latency average over
zero requests stays at its 0 default, so report generation is total
(totality itself is inherent in the embedding's function types). -/
theorem zero_sentinel_totality (corr : JRecord) (p : ℕ) (cfg : AnalyzerConfig)
    (data : CorrelationData) (hlat : corr.app_latency_ms.getD 0 ≤ 0)
    (hempty : data.correlations = []) :
    (corrToMetric corr).throughput_bps = 0 ∧ percentile [] p = 0 ∧
    (analyzeCorrelations cfg data).2.latency_avg = 0 := by
  refine ⟨?_, rfl, ?_⟩
  · simp only [corrToMetric]
    rw [if_neg (not_lt.mpr hlat)]
  · simp [analyzeCorrelations, hempty]

theorem zero_sentinel_totality_witness :
    (({} : JRecord).app_latency_ms.getD 0 ≤ 0 ∧
      ({} : CorrelationData).correlations = []) ∧
    ((corrToMetric {}).throughput_bps = 0 ∧ percentile [] 95 = 0 ∧
      (analyzeCorrelations {} {}).2.latency_avg = 0) :=
  ⟨⟨by decide, rfl⟩, zero_sentinel_totality {} 95 {} {} (by decide) rfl⟩

/-- C10: when the Analyzer processes zero records (empty correlations or
empty baseline), the resulting AggregatedStatistics keeps its
constructed defaults: success_rate_pct is 100 and error_rate_pct is 0
even though no request succeeded — not the zero sentinel used for the
other empty-input statistics. -/
theorem empty_run_keeps_default_rates (cfg cfg' : AnalyzerConfig)
    (data : CorrelationData) (hempty : data.correlations = []) :
    ((analyzeCorrelations cfg data).2.success_rate_pct = 100 ∧
     (analyzeCorrelations cfg data).2.error_rate_pct = 0 ∧
     (analyzeCorrelations cfg data).2.successful_requests = 0) ∧
    ((analyzeBaseline cfg' []).2.success_rate_pct = 100 ∧
     (analyzeBaseline cfg' []).2.error_rate_pct = 0 ∧
     (analyzeBaseline cfg' []).2.successful_requests = 0) := by
  constructor
  · simp [analyzeCorrelations, hempty]
  · exact ⟨rfl, rfl, rfl⟩

theorem empty_run_keeps_default_rates_witness :
    (({} : CorrelationData).correlations = []) ∧
    ((analyzeCorrelations {} {}).2.success_rate_pct = 100 ∧
     (analyzeCorrelations {} {}).2.error_rate_pct = 0 ∧
     (analyzeCorrelations {} {}).2.successful_requests = 0) ∧
    ((analyzeBaseline {} []).2.success_rate_pct = 100 ∧
     (analyzeBaseline {} []).2.error_rate_pct = 0 ∧
     (analyzeBaseline {} []).2.successful_requests = 0) :=
  ⟨rfl, empty_run_keeps_default_rates {} {} {} rfl⟩
